import Mathlib

/-!
Shallow embedding of `src/projects/data/app.py`, a small data-exploration
dashboard: a loader with remote-to-local fallback (`DataManager`,
`RemoteDataLoader`, `LocalDataLoader`), an equality filter on one column
(`DataFilter.filter_by_column`), a visualizer (`Visualizer`), and the
reactive wiring of `IrisApp.build_server`.

A pandas `DataFrame` is modelled as a `Dataset`: a list of column names
plus a list of rows, each row an association list from column name to
cell value (cells kept as strings, as in the CSV source).  Python
exceptions become `Except`; the ambient world (network, filesystem) is
passed in explicitly as an `Env`.
-/

namespace IrisAppModel

/-- A single row of the tabular dataset: column name ↦ cell value. -/
def Row : Type := List (String × String)

instance : DecidableEq Row := by unfold Row; infer_instance

/-- `row[col]` — the value of `col` in a row, if present. -/
def rowGet (r : Row) (col : String) : Option String :=
  (r.find? (fun p => p.1 = col)).map Prod.snd

/-- In-memory tabular dataset (the model of a pandas `DataFrame`):
column names in order, and rows in order. -/
structure Dataset where
  cols : List String
  rows : List Row
deriving DecidableEq

/-- Errors the filter can raise.  `df[column]` on a missing column raises
a `KeyError` in pandas; the spec calls this condition `InvalidColumn`. -/
inductive FilterError where
  | invalidColumn (column : String)
deriving DecidableEq

/-- The boolean Series `df[column] == value`: one Bool per row, in row
order (pandas compares every cell of the column against the value). -/
def seriesEq (df : Dataset) (column value : String) : List Bool :=
  df.rows.map (fun r => rowGet r column == some value)

/-- Boolean-mask selection `df[mask]`: keep exactly the rows whose mask
entry is `true`, in the original order. -/
def booleanIndex (rows : List Row) (mask : List Bool) : List Row :=
  (rows.zip mask).filterMap (fun p => if p.2 then some p.1 else none)

/-- The `DataFilter` object: holds the dataframe given to `__init__`. -/
structure DataFilter where
  dataframe : Dataset
deriving DecidableEq

/-- `DataFilter.filter_by_column(column, value)`:
`if value == "All": return self.dataframe`
`return self.dataframe[self.dataframe[column] == value]`.
Accessing `self.dataframe[column]` with a missing column raises
(`InvalidColumn`). -/
def DataFilter.filter_by_column (self : DataFilter) (column value : String) :
    Except FilterError Dataset :=
  if value = "All" then
    .ok self.dataframe
  else if column ∈ self.dataframe.cols then
    .ok { cols := self.dataframe.cols
          rows := booleanIndex self.dataframe.rows
                    (seriesEq self.dataframe column value) }
  else
    .error (.invalidColumn column)

/-- State-passing form of the same method: the Python body contains no
assignment to `self`, so the post-state is the receiver unchanged. -/
def DataFilter.filter_by_columnSt (self : DataFilter) (column value : String) :
    Except FilterError Dataset × DataFilter :=
  (self.filter_by_column column value, self)

/-- An HTTP response as seen by `requests.get`: status code and body. -/
structure HttpResponse where
  status : Nat
  body : String
deriving DecidableEq

/-- The ambient world a load interacts with: the outcome of the single
HTTP GET (`none` models a raised network error or timeout), the local
file's presence and content, and the CSV parser `pd.read_csv` (`none`
models a parse error on malformed text). -/
structure Env where
  network : Option HttpResponse
  fileExists : Bool
  fileContent : String
  parse : String → Option Dataset

/-- The exceptions the loading layer can raise. -/
inductive LoadError where
  | ioError (url : String)
  | fileNotFound (path : String)
  | parseFailure
deriving DecidableEq

/-- `RemoteDataLoader(url, timeout=10)`. -/
structure RemoteDataLoader where
  url : String
  timeout : Nat := 10

/-- `RemoteDataLoader.load`: `requests.get` then `raise_for_status`
(which raises for any status ≥ 400) then `pd.read_csv` on the body;
any exception is re-raised as `IOError`. -/
def RemoteDataLoader.load (self : RemoteDataLoader) (env : Env) :
    Except LoadError Dataset :=
  match env.network with
  | none => .error (.ioError self.url)
  | some resp =>
    if resp.status < 400 then
      match env.parse resp.body with
      | some d => .ok d
      | none => .error (.ioError self.url)
    else
      .error (.ioError self.url)

/-- `LocalDataLoader(file_path)`. -/
structure LocalDataLoader where
  file_path : String

/-- `LocalDataLoader.load`: `FileNotFoundError` when the file is absent,
otherwise `pd.read_csv` on the file (a parse error propagates). -/
def LocalDataLoader.load (self : LocalDataLoader) (env : Env) :
    Except LoadError Dataset :=
  if env.fileExists then
    match env.parse env.fileContent with
    | some d => .ok d
    | none => .error .parseFailure
  else
    .error (.fileNotFound self.file_path)

/-- Python truthiness of `Optional[str]`: `None` and `""` are falsy. -/
def pyTruthy : Option String → Bool
  | none => false
  | some s => !(s = "")

/-- `DataManager`: remote URL (optional), local path, and the `_data`
cache, initially `None`. -/
structure DataManager where
  remote_url : Option String
  local_path : String
  _data : Option Dataset := none
deriving DecidableEq

/-- `DataManager.load`: if `self.remote_url` is truthy, try the remote
loader and on any exception fall back silently to the local loader;
otherwise go straight to the local loader.  On success the result is
stored in `_data` (modelled by the `_data` field) and returned; a local
failure propagates. -/
def DataManager.load (self : DataManager) (env : Env) :
    Except LoadError (Dataset × DataManager) :=
  if pyTruthy self.remote_url then
    match (RemoteDataLoader.mk (self.remote_url.getD "") 10).load env with
    | .ok d => .ok (d, { self with _data := some d })
    | .error _ =>
      ((LocalDataLoader.mk self.local_path).load env).map
        (fun d => (d, { self with _data := some d }))
  else
    ((LocalDataLoader.mk self.local_path).load env).map
      (fun d => (d, { self with _data := some d }))

/-- The `DataManager.data` property: load only when `_data` is `None`,
then return the stored dataset.  The `Nat` in the result counts how many
times `load()` ran during the access. -/
def DataManager.data (self : DataManager) (env : Env) :
    Except LoadError (Dataset × DataManager × Nat) :=
  match self._data with
  | some d => .ok (d, self, 0)
  | none => (self.load env).map (fun p => (p.1, p.2, 1))

/-- One marker of `px.scatter`: a point per row at
`(row[x], row[y])`, grouped by `row[color]`, optionally sized, with the
remaining columns attached as hover metadata. -/
structure ScatterPoint where
  x : Option String
  y : Option String
  color : Option String
  size : Option String
  hover : List (String × Option String)
deriving DecidableEq

/-- The figure `px.scatter` builds: a title and one point per row. -/
structure ScatterFigure where
  title : String
  points : List ScatterPoint
deriving DecidableEq

/-- `px.scatter` raises a `ValueError` when a named column is absent
from the dataframe. -/
inductive PlotError where
  | missingColumn (column : String)
deriving DecidableEq

/-- The `Visualizer` object: holds the dataframe given to `__init__`. -/
structure Visualizer where
  dataframe : Dataset
deriving DecidableEq

/-- `Visualizer.create_scatter_plot(x, y, color, title)`: `px.scatter`
over the rows, with `size="petal_width"` only when that column exists
and `hover_data` every column other than `color`. -/
def Visualizer.create_scatter_plot (self : Visualizer)
    (x y color title : String) : Except PlotError ScatterFigure :=
  let df := self.dataframe
  if x ∈ df.cols then
    if y ∈ df.cols then
      if color ∈ df.cols then
        .ok { title := title
              points := df.rows.map (fun r =>
                { x := rowGet r x
                  y := rowGet r y
                  color := rowGet r color
                  size := if "petal_width" ∈ df.cols
                          then rowGet r "petal_width" else none
                  hover := (df.cols.filter (fun c => c ≠ color)).map
                             (fun c => (c, rowGet r c)) }) }
      else .error (.missingColumn color)
    else .error (.missingColumn y)
  else .error (.missingColumn x)

/-- The grid `DataFrame.to_html` serializes: a header row of column
names and one body row per data row, in original order. -/
structure HtmlTable where
  header : List String
  body : List (List (Option String))
deriving DecidableEq

/-- `Visualizer.create_data_table()`: `self.dataframe.to_html()`. -/
def Visualizer.create_data_table (self : Visualizer) : HtmlTable :=
  { header := self.dataframe.cols
    body := self.dataframe.rows.map (fun r =>
      self.dataframe.cols.map (fun c => rowGet r c)) }

/-- Modelled from the spec: the reactive framework's `@reactive.Calc`
(dependency-tracked memoization, spec §9 — "recompute the Filtered view
only when the input selection changes") is not part of this repository.
A session holds the current `input.species()` value and the calc's memo
cell, which an input change clears. -/
structure Session where
  species : String
  cache : Option Dataset
deriving DecidableEq

/-- A change of the species input: the new selection invalidates the
`filtered_data` calc. -/
def Session.setSpecies (_s : Session) (v : String) : Session :=
  { species := v, cache := none }

/-- Reading the `filtered_data` calc: answer from the memo cell when it
is filled, otherwise run `filter_by_column("species", input.species())`
once and fill it.  The `Nat` counts filter computations performed. -/
def calcFilteredData (filt : DataFilter) (s : Session) :
    Except FilterError (Dataset × Session × Nat) :=
  match s.cache with
  | some d => .ok (d, s, 0)
  | none =>
    (filt.filter_by_column "species" s.species).map
      (fun d => (d, { s with cache := some d }, 1))

/-- Anything the server callbacks can raise. -/
inductive ServerError where
  | filter (e : FilterError)
  | plot (e : PlotError)
deriving DecidableEq

/-- The markup of the `table_ui` output: the row-count heading
(`"Showing {len(d)} rows"`) and the rendered table. -/
structure TableOutput where
  rowCount : Nat
  table : HtmlTable
deriving DecidableEq

/-- The `table_ui` output: read `filtered_data()`, then render the
heading and `Visualizer(d).create_data_table()`. -/
def renderTableUi (filt : DataFilter) (s : Session) :
    Except ServerError (TableOutput × Session × Nat) :=
  match calcFilteredData filt s with
  | .error e => .error (.filter e)
  | .ok (d, s', n) =>
    .ok ({ rowCount := d.rows.length
           table := (Visualizer.mk d).create_data_table }, s', n)

/-- The `scatter_plot` output: read `filtered_data()`, then render
`Visualizer(d).create_scatter_plot("sepal_length", "petal_length",
"species", "Sepal vs Petal Length")`. -/
def renderScatterPlot (filt : DataFilter) (s : Session) :
    Except ServerError (ScatterFigure × Session × Nat) :=
  match calcFilteredData filt s with
  | .error e => .error (.filter e)
  | .ok (d, s', n) =>
    match (Visualizer.mk d).create_scatter_plot
        "sepal_length" "petal_length" "species" "Sepal vs Petal Length" with
    | .error e => .error (.plot e)
    | .ok fig => .ok (fig, s', n)

/-- One change of the species input followed by the regeneration of both
outputs, as the framework schedules it: invalidate, render the table,
render the plot.  The `Nat` is the total number of filter computations
over the whole change. -/
def handleSpeciesChange (filt : DataFilter) (s : Session) (v : String) :
    Except ServerError (TableOutput × ScatterFigure × Session × Nat) :=
  let s1 := s.setSpecies v
  match renderTableUi filt s1 with
  | .error e => .error e
  | .ok (tbl, s2, n1) =>
    match renderScatterPlot filt s2 with
    | .error e => .error e
    | .ok (fig, s3, n2) => .ok (tbl, fig, s3, n1 + n2)

/-- Boolean-mask selection against the column's own equality mask is
ordinary list filtering. -/
theorem booleanIndex_map (rows : List Row) (p : Row → Bool) :
    booleanIndex rows (rows.map p) = rows.filter p := by
  induction rows with
  | nil => rfl
  | cons r rs ih =>
    simp only [booleanIndex, List.map_cons, List.zip_cons_cons,
      List.filterMap_cons, List.filter_cons] at *
    cases h : p r <;> simp [h, ih]

theorem seriesEq_booleanIndex (df : Dataset) (column value : String) :
    booleanIndex df.rows (seriesEq df column value) =
      df.rows.filter (fun r => rowGet r column == some value) := by
  unfold seriesEq
  exact booleanIndex_map df.rows _

/-- `seriesEq_booleanIndex` with the dataset given by its two fields. -/
theorem seriesEq_booleanIndex_mk (cols : List String) (rows : List Row)
    (column value : String) :
    booleanIndex rows (seriesEq (Dataset.mk cols rows) column value) =
      rows.filter (fun r => rowGet r column == some value) :=
  seriesEq_booleanIndex (Dataset.mk cols rows) column value

instance {ε α : Type} [DecidableEq ε] [DecidableEq α] : DecidableEq (Except ε α)
  | .ok a, .ok b =>
      if h : a = b then isTrue (congrArg Except.ok h)
      else isFalse (fun hc => h (Except.ok.inj hc))
  | .ok _, .error _ => isFalse (fun hc => Except.noConfusion hc)
  | .error _, .ok _ => isFalse (fun hc => Except.noConfusion hc)
  | .error a, .error b =>
      if h : a = b then isTrue (congrArg Except.error h)
      else isFalse (fun hc => h (Except.error.inj hc))

end IrisAppModel

namespace IrisAppModel

/-- `C4` — For every dataset `D` and every column name `col`,
`filter(D, col, "All")` returns the dataset unchanged: the same rows in
the same order. -/
theorem filter_all_id (D : Dataset) (col : String) :
    (DataFilter.mk D).filter_by_column col "All" = .ok D := by
  rfl

/-- `C3` — For every dataset `D`, every column `col` present in `D`, and
every value `v` distinct from the sentinel `"All"`,
`filter(D, col, v)` returns exactly the rows of `D` whose value in `col`
equals `v`, preserving the original row order. -/
theorem filter_eq_rows (D : Dataset) (col v : String)
    (hcol : col ∈ D.cols) (hv : v ≠ "All") :
    (DataFilter.mk D).filter_by_column col v =
      .ok { cols := D.cols
            rows := D.rows.filter (fun r => rowGet r col == some v) } := by
  unfold DataFilter.filter_by_column
  simp [hv, hcol, seriesEq_booleanIndex]

/-- `C5` counterexample — with `value = "All"` the method returns before
ever touching `column`, so a missing column does *not* fail: the claim
as stated (quantified over every value `v`) is false. -/
theorem filter_missing_column_all_ok :
    "bogus" ∉ (Dataset.mk ["species"] [] : Dataset).cols ∧
    (DataFilter.mk (Dataset.mk ["species"] [])).filter_by_column "bogus" "All" =
      .ok (Dataset.mk ["species"] []) := by
  decide

/-- `C5` (amended) — for every dataset `D`, every value `v` other than
the sentinel `"All"`, and every column absent from `D`, the call fails
with `InvalidColumn`. -/
theorem filter_missing_column_error (D : Dataset) (col v : String)
    (hcol : col ∉ D.cols) (hv : v ≠ "All") :
    (DataFilter.mk D).filter_by_column col v = .error (.invalidColumn col) := by
  unfold DataFilter.filter_by_column
  simp [hv, hcol]

/-- Witness for `filter_missing_column_error`. -/
theorem filter_missing_column_error_witness :
    (DataFilter.mk (Dataset.mk ["species"] [])).filter_by_column "bogus" "setosa" =
      .error (.invalidColumn "bogus") :=
  filter_missing_column_error (Dataset.mk ["species"] []) "bogus" "setosa"
    (by decide) (by decide)

/-- `C6` — filtering twice with the same arguments equals filtering
once: if `filter(D, col, v)` succeeds with result `D'`, then
`filter(D', col, v)` succeeds with the same result `D'`. -/
theorem filter_idem (D D' : Dataset) (col v : String)
    (h : (DataFilter.mk D).filter_by_column col v = .ok D') :
    (DataFilter.mk D').filter_by_column col v = .ok D' := by
  unfold DataFilter.filter_by_column at h ⊢
  by_cases hv : v = "All"
  · simp [hv]
  · by_cases hcol : col ∈ D.cols
    · simp only [if_neg hv, if_pos hcol, Except.ok.injEq] at h
      subst h
      simp only [if_neg hv, if_pos hcol, Except.ok.injEq]
      rw [seriesEq_booleanIndex_mk, seriesEq_booleanIndex_mk]
      simp only [Dataset.mk.injEq, true_and]
      exact List.filter_eq_self.mpr (fun r hr => (List.mem_filter.mp hr).2)
    · simp [hv, hcol] at h

/-- Witness for `filter_idem`. -/
theorem filter_idem_witness :
    (DataFilter.mk
        (Dataset.mk ["species"] [[("species", "setosa")], [("species", "virginica")]])
      ).filter_by_column "species" "setosa" =
      .ok (Dataset.mk ["species"] [[("species", "setosa")]]) ∧
    (DataFilter.mk (Dataset.mk ["species"] [[("species", "setosa")]])
      ).filter_by_column "species" "setosa" =
      .ok (Dataset.mk ["species"] [[("species", "setosa")]]) := by
  refine ⟨by decide, ?_⟩
  exact filter_idem
    (Dataset.mk ["species"] [[("species", "setosa")], [("species", "virginica")]])
    (Dataset.mk ["species"] [[("species", "setosa")]])
    "species" "setosa" (by decide)

/-- `C7` — the filter never mutates its receiver (the post-state of the
state-passing form is the pre-state, so the dataset holds exactly the
rows and values it held before) and its result depends only on the
arguments: two `DataFilter`s holding equal dataframes produce equal
results. -/
theorem filter_no_mutation (st st' : DataFilter) (col v : String)
    (h : st.dataframe = st'.dataframe) :
    (st.filter_by_columnSt col v).2 = st ∧
    (st.filter_by_columnSt col v).1 = (st'.filter_by_columnSt col v).1 := by
  obtain ⟨d⟩ := st
  obtain ⟨d'⟩ := st'
  cases h
  exact ⟨rfl, rfl⟩

/-- Witness for `filter_no_mutation`. -/
theorem filter_no_mutation_witness :
    ((DataFilter.mk (Dataset.mk ["species"] [])).filter_by_columnSt "species" "setosa").2 =
      DataFilter.mk (Dataset.mk ["species"] []) :=
  (filter_no_mutation (DataFilter.mk (Dataset.mk ["species"] []))
    (DataFilter.mk (Dataset.mk ["species"] [])) "species" "setosa" rfl).1

/-- Witness for `filter_eq_rows` at a concrete two-row dataset. -/
theorem filter_eq_rows_witness :
    (DataFilter.mk
        { cols := ["species", "sepal_length"]
          rows := [[("species", "setosa"), ("sepal_length", "5.1")],
                   [("species", "versicolor"), ("sepal_length", "6.0")]] }
      ).filter_by_column "species" "setosa" =
      .ok { cols := ["species", "sepal_length"]
            rows := [[("species", "setosa"), ("sepal_length", "5.1")]] } := by
  have h := filter_eq_rows
    { cols := ["species", "sepal_length"]
      rows := [[("species", "setosa"), ("sepal_length", "5.1")],
               [("species", "versicolor"), ("sepal_length", "6.0")]] }
    "species" "setosa" (by decide) (by decide)
  rw [h]
  rfl

end IrisAppModel

namespace IrisAppModel

/-- `C1` — `load()` fails only if both the remote and local sources
fail: an error implies the local loader failed with that very error and,
when a remote URL was configured (truthy), the remote loader failed too;
and whenever the remote fetch fails for any reason (network error,
timeout, status ≥ 400, malformed body) but the local file exists and
parses to `d`, `load()` returns exactly `d`. -/
theorem dataManager_load_fallback (self : DataManager) (env : Env) :
    (∀ e, self.load env = .error e →
      (LocalDataLoader.mk self.local_path).load env = .error e ∧
      (pyTruthy self.remote_url = true →
        ∃ er, (RemoteDataLoader.mk (self.remote_url.getD "") 10).load env =
          .error er)) ∧
    (∀ er d, (RemoteDataLoader.mk (self.remote_url.getD "") 10).load env = .error er →
      env.fileExists = true → env.parse env.fileContent = some d →
      self.load env = .ok (d, { self with _data := some d })) := by
  constructor
  · intro e he
    unfold DataManager.load at he
    by_cases ht : pyTruthy self.remote_url
    · simp only [ht, if_true] at he
      cases hr : (RemoteDataLoader.mk (self.remote_url.getD "") 10).load env with
      | ok d => rw [hr] at he; exact absurd he (by simp)
      | error er =>
        rw [hr] at he
        refine ⟨?_, fun _ => ⟨er, rfl⟩⟩
        cases hl : (LocalDataLoader.mk self.local_path).load env with
        | ok d => rw [hl] at he; exact absurd he (by simp [Except.map])
        | error e' => rw [hl] at he; simpa [Except.map] using he
    · simp only [ht, if_false] at he
      refine ⟨?_, fun h => absurd h (by simp [ht])⟩
      cases hl : (LocalDataLoader.mk self.local_path).load env with
      | ok d => rw [hl] at he; exact absurd he (by simp [Except.map])
      | error e' => rw [hl] at he; simpa [Except.map] using he
  · intro er d hr hf hp
    unfold DataManager.load
    have hl : (LocalDataLoader.mk self.local_path).load env = .ok d := by
      unfold LocalDataLoader.load
      simp [hf, hp]
    by_cases ht : pyTruthy self.remote_url
    · simp [ht, hr, hl, Except.map]
    · simp [ht, hl, Except.map]

/-- Witness for `dataManager_load_fallback`: with the network down and a
readable local file, `load()` returns the local parse. -/
theorem dataManager_load_fallback_witness :
    (DataManager.mk (some "http://x") "sample.csv" none).load
        (Env.mk none true "species\nsetosa"
          (fun s => if s = "species\nsetosa"
            then some (Dataset.mk ["species"] [[("species", "setosa")]])
            else none)) =
      .ok (Dataset.mk ["species"] [[("species", "setosa")]],
           DataManager.mk (some "http://x") "sample.csv"
             (some (Dataset.mk ["species"] [[("species", "setosa")]]))) :=
  (dataManager_load_fallback
      (DataManager.mk (some "http://x") "sample.csv" none)
      (Env.mk none true "species\nsetosa"
        (fun s => if s = "species\nsetosa"
          then some (Dataset.mk ["species"] [[("species", "setosa")]])
          else none))).2
    (.ioError "http://x") (Dataset.mk ["species"] [[("species", "setosa")]])
    rfl rfl (by simp)

/-- `C2` — with a (truthy) remote URL configured, when the remote fetch
succeeds with dataset `d`, `load()` returns `d` — the remote parse —
whatever the local file holds. -/
theorem dataManager_load_remote_success (self : DataManager) (env : Env)
    (d : Dataset) (ht : pyTruthy self.remote_url = true)
    (hr : (RemoteDataLoader.mk (self.remote_url.getD "") 10).load env = .ok d) :
    self.load env = .ok (d, { self with _data := some d }) := by
  unfold DataManager.load
  simp [ht, hr]

/-- Witness for `dataManager_load_remote_success`: remote body parses to
one dataset while the local file would parse to a different one; the
remote dataset is returned. -/
theorem dataManager_load_remote_success_witness :
    (DataManager.mk (some "http://x") "sample.csv" none).load
        (Env.mk (some (HttpResponse.mk 200 "remote"))
          true "local"
          (fun s => if s = "remote"
            then some (Dataset.mk ["species"] [[("species", "virginica")]])
            else some (Dataset.mk ["species"] [[("species", "setosa")]]))) =
      .ok (Dataset.mk ["species"] [[("species", "virginica")]],
           DataManager.mk (some "http://x") "sample.csv"
             (some (Dataset.mk ["species"] [[("species", "virginica")]]))) :=
  dataManager_load_remote_success
    (DataManager.mk (some "http://x") "sample.csv" none)
    (Env.mk (some (HttpResponse.mk 200 "remote")) true "local"
      (fun s => if s = "remote"
        then some (Dataset.mk ["species"] [[("species", "virginica")]])
        else some (Dataset.mk ["species"] [[("species", "setosa")]])))
    (Dataset.mk ["species"] [[("species", "virginica")]])
    rfl (by simp [RemoteDataLoader.load])

end IrisAppModel

namespace IrisAppModel

/-- Every success path of `DataManager.load` stores the returned dataset
in `_data`. -/
theorem dataManager_load_sets_cache (self : DataManager) (env : Env)
    (d : Dataset) (self' : DataManager)
    (h : self.load env = .ok (d, self')) :
    self' = { self with _data := some d } := by
  unfold DataManager.load at h
  by_cases ht : pyTruthy self.remote_url
  · simp only [ht, if_true] at h
    cases hr : (RemoteDataLoader.mk (self.remote_url.getD "") 10).load env with
    | ok d0 =>
      rw [hr] at h
      obtain ⟨h1, h2⟩ := Prod.mk.injEq .. ▸ Except.ok.inj h
      rw [← h2, ← h1]
    | error er =>
      rw [hr] at h
      cases hl : (LocalDataLoader.mk self.local_path).load env with
      | ok d0 =>
        rw [hl] at h
        obtain ⟨h1, h2⟩ := Prod.mk.injEq .. ▸ Except.ok.inj h
        rw [← h2, ← h1]
      | error e' => rw [hl] at h; exact absurd h (by simp [Except.map])
  · simp only [ht, if_false] at h
    cases hl : (LocalDataLoader.mk self.local_path).load env with
    | ok d0 =>
      rw [hl] at h
      obtain ⟨h1, h2⟩ := Prod.mk.injEq .. ▸ Except.ok.inj h
      rw [← h2, ← h1]
    | error e' => rw [hl] at h; exact absurd h (by simp [Except.map])

/-- `C10` — the `data` property is lazy and memoized: when the cache is
empty a successful access performs exactly one `load()` (whose result it
returns), and after any successful access every subsequent access — under
any environment, hence with no further network or file activity — returns
the same already-loaded dataset with zero `load()` calls. -/
theorem dataManager_data_lazy_memo (self : DataManager) (env : Env)
    (d : Dataset) (self' : DataManager) (n : Nat)
    (h : self.data env = .ok (d, self', n)) :
    (self._data = none → n = 1 ∧ self.load env = .ok (d, self')) ∧
    (∀ env₂, self'.data env₂ = .ok (d, self', 0)) := by
  unfold DataManager.data at h
  cases hc : self._data with
  | some d0 =>
    rw [hc] at h
    simp only [Except.ok.injEq, Prod.mk.injEq] at h
    obtain ⟨h1, h2, h3⟩ := h
    refine ⟨fun hn => Option.noConfusion hn, fun env₂ => ?_⟩
    unfold DataManager.data
    rw [← h2, hc, h1]
  | none =>
    rw [hc] at h
    cases hl : self.load env with
    | ok p =>
      obtain ⟨pd, ps⟩ := p
      rw [hl] at h
      simp only [Except.map, Except.ok.injEq, Prod.mk.injEq] at h
      obtain ⟨h1, h2, h3⟩ := h
      have hset : self' = { self with _data := some d } := by
        have hsc := dataManager_load_sets_cache self env pd ps hl
        rw [h2, h1] at hsc
        exact hsc
      refine ⟨fun _ => ⟨h3.symm, ?_⟩, fun env₂ => ?_⟩
      · rw [h1, h2]
      · unfold DataManager.data
        rw [hset]
    | error e => rw [hl] at h; exact absurd h (by simp [Except.map])

/-- Witness for `dataManager_data_lazy_memo`: a first access on an empty
cache loads once; the state it returns answers a second access (with the
file now gone) from the cache, with zero loads. -/
theorem dataManager_data_lazy_memo_witness :
    (DataManager.mk none "sample.csv"
        (some (Dataset.mk ["species"] []))).data
      (Env.mk none false "" (fun _ => none)) =
      .ok (Dataset.mk ["species"] [],
           DataManager.mk none "sample.csv" (some (Dataset.mk ["species"] [])),
           0) :=
  (dataManager_data_lazy_memo
      (DataManager.mk none "sample.csv" (some (Dataset.mk ["species"] [])))
      (Env.mk none true "csv" (fun _ => some (Dataset.mk ["species"] [])))
      (Dataset.mk ["species"] [])
      (DataManager.mk none "sample.csv" (some (Dataset.mk ["species"] [])))
      0 rfl).2
    (Env.mk none false "" (fun _ => none))

end IrisAppModel

namespace IrisAppModel

/-- `C8` — on the empty dataset (zero rows, expected columns present),
both renderers succeed rather than failing: the scatter plot is a valid
figure with zero points and the table is a valid grid with the header
row and zero data rows. -/
theorem empty_dataset_renders (df : Dataset) (x y color title : String)
    (hrows : df.rows = []) (hx : x ∈ df.cols) (hy : y ∈ df.cols)
    (hc : color ∈ df.cols) :
    (Visualizer.mk df).create_scatter_plot x y color title =
      .ok { title := title, points := [] } ∧
    (Visualizer.mk df).create_data_table =
      { header := df.cols, body := [] } := by
  unfold Visualizer.create_scatter_plot Visualizer.create_data_table
  simp [hx, hy, hc, hrows]

/-- Witness for `empty_dataset_renders` on the empty iris table. -/
theorem empty_dataset_renders_witness :
    (Visualizer.mk
        (Dataset.mk ["species", "sepal_length", "petal_length", "petal_width"] [])
      ).create_scatter_plot "sepal_length" "petal_length" "species"
        "Sepal vs Petal Length" =
      .ok { title := "Sepal vs Petal Length", points := [] } ∧
    (Visualizer.mk
        (Dataset.mk ["species", "sepal_length", "petal_length", "petal_width"] [])
      ).create_data_table =
      { header := ["species", "sepal_length", "petal_length", "petal_width"]
        body := [] } :=
  empty_dataset_renders
    (Dataset.mk ["species", "sepal_length", "petal_length", "petal_width"] [])
    "sepal_length" "petal_length" "species" "Sepal vs Petal Length"
    rfl (by decide) (by decide) (by decide)

/-- `C9` — a change of the species input recomputes the `filtered_data`
calc exactly once for the whole change (not once per output), and both
regenerated outputs derive from that single shared filtered dataset. -/
theorem species_change_recomputes_once (filt : DataFilter) (s : Session)
    (v : String) (tbl : TableOutput) (fig : ScatterFigure) (s' : Session)
    (n : Nat)
    (h : handleSpeciesChange filt s v = .ok (tbl, fig, s', n)) :
    n = 1 ∧ ∃ d, filt.filter_by_column "species" v = .ok d ∧
      tbl = { rowCount := d.rows.length
              table := (Visualizer.mk d).create_data_table } ∧
      (Visualizer.mk d).create_scatter_plot "sepal_length" "petal_length"
        "species" "Sepal vs Petal Length" = .ok fig := by
  simp only [handleSpeciesChange, Session.setSpecies, renderTableUi,
    renderScatterPlot, calcFilteredData] at h
  cases hf : filt.filter_by_column "species" v with
  | error e =>
    rw [hf] at h
    exact absurd h (by simp [Except.map])
  | ok d =>
    rw [hf] at h
    simp only [Except.map] at h
    cases hp : (Visualizer.mk d).create_scatter_plot "sepal_length"
        "petal_length" "species" "Sepal vs Petal Length" with
    | error e =>
      rw [hp] at h
      exact absurd h (by simp)
    | ok fig0 =>
      rw [hp] at h
      simp only [Except.ok.injEq, Prod.mk.injEq] at h
      obtain ⟨h1, h2, h3, h4⟩ := h
      exact ⟨h4.symm, d, rfl, h1.symm, h2 ▸ hp⟩

/-- Witness for `species_change_recomputes_once`: one concrete change of
the selection on a two-row dataset. -/
theorem species_change_recomputes_once_witness :
    1 = 1 ∧ ∃ d,
      (DataFilter.mk (Dataset.mk ["species", "sepal_length", "petal_length"]
          [[("species", "setosa"), ("sepal_length", "5.1"), ("petal_length", "1.4")],
           [("species", "virginica"), ("sepal_length", "6.3"), ("petal_length", "6.0")]])
        ).filter_by_column "species" "setosa" = .ok d ∧
      ({ rowCount := 1
         table := { header := ["species", "sepal_length", "petal_length"]
                    body := [[some "setosa", some "5.1", some "1.4"]] } }
        : TableOutput) =
        { rowCount := d.rows.length
          table := (Visualizer.mk d).create_data_table } ∧
      (Visualizer.mk d).create_scatter_plot "sepal_length" "petal_length"
        "species" "Sepal vs Petal Length" =
        .ok { title := "Sepal vs Petal Length"
              points := [{ x := some "5.1", y := some "1.4"
                           color := some "setosa", size := none
                           hover := [("sepal_length", some "5.1"),
                                     ("petal_length", some "1.4")] }] } :=
  species_change_recomputes_once
    (DataFilter.mk (Dataset.mk ["species", "sepal_length", "petal_length"]
      [[("species", "setosa"), ("sepal_length", "5.1"), ("petal_length", "1.4")],
       [("species", "virginica"), ("sepal_length", "6.3"), ("petal_length", "6.0")]]))
    (Session.mk "All" none) "setosa"
    { rowCount := 1
      table := { header := ["species", "sepal_length", "petal_length"]
                 body := [[some "setosa", some "5.1", some "1.4"]] } }
    { title := "Sepal vs Petal Length"
      points := [{ x := some "5.1", y := some "1.4"
                   color := some "setosa", size := none
                   hover := [("sepal_length", some "5.1"),
                             ("petal_length", some "1.4")] }] }
    (Session.mk "setosa"
      (some (Dataset.mk ["species", "sepal_length", "petal_length"]
        [[("species", "setosa"), ("sepal_length", "5.1"), ("petal_length", "1.4")]])))
    1 (by decide)

end IrisAppModel
